import Mathlib

/-!
Shallow embedding of the `depsclient` Go package (Deps-API/deps-go,
src/client.go, second document): the response-unpacking function
`unpackResponse`, the `ErrNotFound` sentinel, the client constructor
`NewClient` with its functional options, the authentication request
interceptor, and the service-facade call shape (`PlayerService.Find`).

Modelling conventions:
* Go `error` values are the inductive `GoError`; a nil error is `none` in
  `Option GoError`.  `errors.New` package-level sentinels get their own
  constructor (`errNotFound`), so Lean equality coincides with Go identity
  checking for them; `fmt.Errorf` without `%w` is `errorString`, and
  `fmt.Errorf("ctx: %w", e)` is `wrapped "ctx" e`.
* A Go pointer `*T` is `Option T`; dereferencing a nil pointer is a panic,
  modelled by an outer `Option` on the result of any function that can
  panic (`none` = panic).
* Go `int`/`time.Duration` are `Int` (nanoseconds for durations).
-/

/-- Go error values as seen by this package. -/
inductive GoError : Type where
  /-- the package-level sentinel `var ErrNotFound = errors.New("not found")` -/
  | errNotFound : GoError
  /-- an error with only a message (`errors.New` / `fmt.Errorf` without `%w`) -/
  | errorString : String → GoError
  /-- `fmt.Errorf("<context>: %w", cause)` -/
  | wrapped : String → GoError → GoError
deriving DecidableEq

/-- `err.Error()`: the message of a Go error. -/
def GoError.message : GoError → String
  | .errNotFound => "not found"
  | .errorString s => s
  | .wrapped ctx e => ctx ++ ": " ++ e.message

/-- `errors.Unwrap`: a `%w`-wrapped error exposes its cause. -/
def GoError.unwrap : GoError → Option GoError
  | .wrapped _ e => some e
  | _ => none

/-- `var ErrNotFound = errors.New("not found")` (src/client.go line 197). -/
def ErrNotFound : GoError := GoError.errNotFound

/-- The fields of `*http.Response` read by this package. -/
structure HTTPResponse : Type where
  /-- `StatusCode`, e.g. 200 -/
  statusCode : Int
  /-- `Status`, the raw status text, e.g. "200 OK" -/
  status : String
deriving DecidableEq

/--
`unpackResponse[T](responseBody *T, httpResponse *http.Response, err error)
(*T, error)` (src/client.go lines 204-226).  The Go pair return is
`Option T × Option GoError`; the outer `Option` is `none` exactly when the
Go code would dereference a nil `httpResponse` pointer (a panic).
-/
def unpackResponse {T : Type} (responseBody : Option T)
    (httpResponse : Option HTTPResponse) (err : Option GoError) :
    Option (Option T × Option GoError) :=
  match err with
  | some e => some (none, some (GoError.wrapped "client execution error" e))
  | none =>
    match httpResponse with
    | none => none
    | some r =>
      -- http.StatusNotFound = 404
      if r.statusCode = 404 then
        some (none, some ErrNotFound)
      else if r.statusCode < 200 ∨ r.statusCode ≥ 300 then
        some (none, some (GoError.errorString ("api error: status " ++ r.status)))
      else
        match responseBody with
        | none => some (none, some ErrNotFound)
        | some _ => some (responseBody, none)

example : unpackResponse (some 3) (some ⟨200, "200 OK"⟩) none = some (some 3, none) := by decide
example : unpackResponse (some 3) (some ⟨404, "404 Not Found"⟩) none
    = some (none, some ErrNotFound) := by decide
example : unpackResponse (none : Option Nat) (some ⟨200, "200 OK"⟩) none
    = some (none, some ErrNotFound) := by decide
example : unpackResponse (some 3) (some ⟨500, "500 Internal Server Error"⟩) none
    = some (none, some (GoError.errorString "api error: status 500 Internal Server Error")) := by
  decide
example : unpackResponse (some 3) none (some (GoError.errorString "boom"))
    = some (none, some (GoError.wrapped "client execution error" (GoError.errorString "boom"))) := by
  decide
example : unpackResponse (some 3) none none = none := by decide

/-- `time.Second` in nanoseconds (`time.Duration` is an integer nanosecond count). -/
def timeSecond : Int := 1000000000

/-- `defaultBaseURL = "https://api.depscian.tech/v2"` (src/client.go line 200). -/
def defaultBaseURL : String := "https://api.depscian.tech/v2"

/-- `apiKeyHeader = "X-API-Key"` (src/client.go line 201). -/
def apiKeyHeader : String := "X-API-Key"

/--
The fields of Go's `http.Client` relevant here: `Timeout` (a duration) and
an opaque identity for the remaining state (`Transport` etc.), so that a
wholesale struct copy (`*c = *customClient`) is distinguishable from a
single-field merge.
-/
structure HTTPClient : Type where
  /-- opaque identity of `Transport` (and other non-timeout state); `none` = zero value -/
  transport : Option Nat := none
  /-- `Timeout` in nanoseconds; the Go zero value is 0 -/
  timeout : Int := 0
deriving DecidableEq

/--
`type Option func(*http.Client, *string) error` (src/client.go line 248);
the pointer mutations become state passing: the option receives the current
http client and base URL and returns their new values plus a Go error.
(Named `ClientOption` because `Option` is taken in Lean.)
-/
def ClientOption : Type := HTTPClient → String → HTTPClient × String × Option GoError

/-- `WithBaseURL(url)` (src/client.go lines 292-297): replaces the base URL. -/
def WithBaseURL (url : String) : ClientOption :=
  fun c _ => (c, url, none)

/-- `WithTimeout(timeout)` (src/client.go lines 299-304): sets `c.Timeout` only. -/
def WithTimeout (timeout : Int) : ClientOption :=
  fun c baseURL => ({ c with timeout := timeout }, baseURL, none)

/--
`WithHTTPClient(customClient)` (src/client.go lines 306-311): `*c = *customClient`
copies the whole struct, replacing every field of the client being built.
-/
def WithHTTPClient (customClient : HTTPClient) : ClientOption :=
  fun _ baseURL => (customClient, baseURL, none)

/-- The `&http.Client{Timeout: 30 * time.Second}` that `NewClient` starts from. -/
def initialHTTPClient : HTTPClient := { transport := none, timeout := 30 * timeSecond }

/--
The option loop of `NewClient` (src/client.go lines 256-260): apply each
option in order; on the first option error return
`fmt.Errorf("failed to apply option: %w", err)` immediately.
-/
def NewClient.applyLoop : List ClientOption → HTTPClient → String →
    Except GoError (HTTPClient × String)
  | [], c, b => .ok (c, b)
  | opt :: rest, c, b =>
    match opt c b with
    | (c', b', none) => NewClient.applyLoop rest c' b'
    | (_, _, some e) => .error (GoError.wrapped "failed to apply option" e)

/--
The configured state a successful `NewClient` hands to the generated API
client, together with the captured API key: base URL, HTTP client, and the
facades all sharing them.  The generated `apiclient.NewClientWithResponses`
(external, out of scope) cannot fail for these inputs.
-/
structure Client : Type where
  apiKey : String
  baseURL : String
  httpClient : HTTPClient
deriving DecidableEq

/--
`NewClient(apiKey string, opts ...Option) (*Client, error)` (src/client.go
lines 250-290): start from a 30-second-timeout client and the default base
URL, run the option loop, abort with `(nil, wrapped error)` on the first
option failure, otherwise return the fully constructed client.
-/
def NewClient (apiKey : String) (opts : List ClientOption) :
    Option Client × Option GoError :=
  match NewClient.applyLoop opts initialHTTPClient defaultBaseURL with
  | .error e => (none, some e)
  | .ok (httpClient, baseURL) =>
    (some { apiKey := apiKey, baseURL := baseURL, httpClient := httpClient }, none)

/-- An outgoing `*http.Request` as far as this package touches it: its headers. -/
structure Request : Type where
  headers : List (String × String)
deriving DecidableEq

/-- `req.Header.Set(key, value)`: replace any existing entries for `key`. -/
def headerSet (h : List (String × String)) (key value : String) :
    List (String × String) :=
  (key, value) :: h.filter (fun p => p.1 ≠ key)

/-- `req.Header.Get(key)`. -/
def headerGet (h : List (String × String)) (key : String) : Option String :=
  (h.find? (fun p => p.1 == key)).map (fun p => p.2)

/--
The `authInterceptor` closure installed by `NewClient` (src/client.go lines
262-265): set the API-key header on the request, return nil error.
-/
def authInterceptor (apiKey : String) (req : Request) : Request × Option GoError :=
  ({ headers := headerSet req.headers apiKeyHeader apiKey }, none)

/--
The request editor a constructed client runs on every outgoing request: the
`authInterceptor` closure over the API key captured at construction,
registered via `apiclient.WithRequestEditorFn` for every endpoint alike.
-/
def Client.requestEditor (c : Client) : Request → Request × Option GoError :=
  authInterceptor c.apiKey

/-- The envelope the generated endpoint methods return: decoded body pointer plus raw response. -/
structure ResponseEnvelope (T : Type) : Type where
  json200 : Option T
  httpResponse : Option HTTPResponse

/-- `apiclient.FindPlayerV2PlayerFindGetParams` (the fields set by the facade). -/
structure FindPlayerParams : Type where
  serverId : Int
  nickname : String
deriving DecidableEq

/--
`PlayerService.Find` (src/client.go lines 419-426), with the external
generated endpoint call as a parameter: build the params, invoke the call;
`if err != nil { return nil, err }` returns the transport error unchanged;
otherwise pipe `(resp.JSON200, resp.HTTPResponse, err)` (with `err` nil at
that point) through `unpackResponse`.  The outer `Option` is `none` when
Go would panic (`resp.JSON200` on a nil `resp`, which the generated client
never produces with a nil error).
-/
def PlayerService.Find {T : Type}
    (endpointCall : FindPlayerParams → Option (ResponseEnvelope T) × Option GoError)
    (serverID : Int) (nickname : String) :
    Option (Option T × Option GoError) :=
  let params : FindPlayerParams := { serverId := serverID, nickname := nickname }
  match endpointCall params with
  | (_, some e) => some (none, some e)
  | (none, none) => none
  | (some resp, none) => unpackResponse resp.json200 resp.httpResponse none

example : NewClient "k" [] =
    (some { apiKey := "k", baseURL := defaultBaseURL, httpClient := initialHTTPClient },
      none) := by decide
example : NewClient "k" [WithTimeout (5 * timeSecond), WithHTTPClient ⟨some 7, 12⟩] =
    (some { apiKey := "k", baseURL := defaultBaseURL, httpClient := ⟨some 7, 12⟩ },
      none) := by decide
example :
    PlayerService.Find
      (fun _ => ((none : Option (ResponseEnvelope Nat)), some (GoError.errorString "refused")))
      1 "Nick" = some (none, some (GoError.errorString "refused")) := rfl

/--
C1: `unpackResponse v (some r) e` returns `(v, nil)` exactly when the
transport error is nil, the status code lies in [200, 300) and the body
pointer `v` is non-nil; in every other case it returns a nil value together
with a non-nil error, so a non-error return is never nil.
-/
theorem unpackResponse_ok_iff {T : Type} (v : Option T) (r : HTTPResponse)
    (e : Option GoError) :
    (unpackResponse v (some r) e = some (v, none)
      ↔ e = none ∧ 200 ≤ r.statusCode ∧ r.statusCode < 300 ∧ v ≠ none)
    ∧ (¬(e = none ∧ 200 ≤ r.statusCode ∧ r.statusCode < 300 ∧ v ≠ none) →
        ∃ err, unpackResponse v (some r) e = some (none, some err)) := by
  constructor
  · constructor
    · intro h
      cases e with
      | some e₀ => simp [unpackResponse] at h
      | none =>
        by_cases h404 : r.statusCode = 404
        · simp [unpackResponse, h404] at h
        · by_cases hout : r.statusCode < 200 ∨ r.statusCode ≥ 300
          · simp [unpackResponse, h404, hout] at h
          · cases v with
            | none => simp [unpackResponse, h404, hout] at h
            | some x => exact ⟨rfl, by omega, by omega, by simp⟩
    · rintro ⟨he, h1, h2, hv⟩
      subst he
      cases v with
      | none => exact absurd rfl hv
      | some x =>
        have h404 : r.statusCode ≠ 404 := by omega
        have hout : ¬(r.statusCode < 200 ∨ r.statusCode ≥ 300) := by omega
        simp [unpackResponse, h404, hout]
  · intro hn
    cases e with
    | some e₀ => exact ⟨_, rfl⟩
    | none =>
      by_cases h404 : r.statusCode = 404
      · exact ⟨ErrNotFound, by simp [unpackResponse, h404]⟩
      · by_cases hout : r.statusCode < 200 ∨ r.statusCode ≥ 300
        · exact ⟨GoError.errorString ("api error: status " ++ r.status),
            by simp [unpackResponse, h404, hout]⟩
        · cases v with
          | none => exact ⟨ErrNotFound, by simp [unpackResponse, h404, hout]⟩
          | some x => exact absurd ⟨rfl, by omega, by omega, by simp⟩ hn

/-- Witness for C1: at body `some 5`, status 200, nil error, the success
branch of `unpackResponse_ok_iff` fires. -/
theorem unpackResponse_ok_iff_witness :
    unpackResponse (some 5) (some ⟨200, "200 OK"⟩) none = some (some 5, none) :=
  (unpackResponse_ok_iff (some 5) ⟨200, "200 OK"⟩ none).1.mpr
    ⟨rfl, by decide, by decide, by decide⟩

/--
C3: with a nil transport error, a 404 status code makes `unpackResponse`
return `(nil, ErrNotFound)` whatever the body pointer is — the 404 rule is
checked before the body-presence rule, and `ErrNotFound` is the single
sentinel error value, checkable by identity (constructor equality here).
-/
theorem unpackResponse_notFound_on_404 {T : Type} (v : Option T) (r : HTTPResponse)
    (h : r.statusCode = 404) :
    unpackResponse v (some r) none = some (none, some ErrNotFound) := by
  simp [unpackResponse, h]

/-- Witness for C3: status 404 with a nil body and with a non-nil body both
give `(nil, ErrNotFound)`. -/
theorem unpackResponse_notFound_on_404_witness :
    unpackResponse (none : Option Nat) (some ⟨404, "404 Not Found"⟩) none
        = some (none, some ErrNotFound)
    ∧ unpackResponse (some 7) (some ⟨404, "404 Not Found"⟩) none
        = some (none, some ErrNotFound) :=
  ⟨unpackResponse_notFound_on_404 none ⟨404, "404 Not Found"⟩ rfl,
   unpackResponse_notFound_on_404 (some 7) ⟨404, "404 Not Found"⟩ rfl⟩

/--
C4: with a nil transport error and a 2xx status code, a nil body pointer
makes `unpackResponse` return `(nil, ErrNotFound)` — the same sentinel that
the 404 rule returns, so an absent success body is indistinguishable from a
missing resource.
-/
theorem unpackResponse_notFound_on_nil_body {T : Type} (r : HTTPResponse)
    (h1 : 200 ≤ r.statusCode) (h2 : r.statusCode < 300) :
    unpackResponse (none : Option T) (some r) none = some (none, some ErrNotFound) := by
  have h404 : r.statusCode ≠ 404 := by omega
  have hout : ¬(r.statusCode < 200 ∨ r.statusCode ≥ 300) := by omega
  simp [unpackResponse, h404, hout]

/-- Witness for C4: nil body, status 200, nil error gives `(nil, ErrNotFound)`. -/
theorem unpackResponse_notFound_on_nil_body_witness :
    unpackResponse (none : Option Nat) (some ⟨200, "200 OK"⟩) none
        = some (none, some ErrNotFound) :=
  unpackResponse_notFound_on_nil_body ⟨200, "200 OK"⟩ (by decide) (by decide)

/--
C5: with a nil transport error, a status code outside [200, 300) and
different from 404 makes `unpackResponse` return nil and a generic error
whose message embeds the raw status text; that error is never the
`ErrNotFound` sentinel.
-/
theorem unpackResponse_status_error {T : Type} (v : Option T) (r : HTTPResponse)
    (h1 : r.statusCode < 200 ∨ r.statusCode ≥ 300) (h2 : r.statusCode ≠ 404) :
    unpackResponse v (some r) none
        = some (none, some (GoError.errorString ("api error: status " ++ r.status)))
    ∧ (GoError.errorString ("api error: status " ++ r.status)).message
        = "api error: status " ++ r.status
    ∧ (∃ pre post,
        (GoError.errorString ("api error: status " ++ r.status)).message
          = pre ++ (r.status ++ post))
    ∧ GoError.errorString ("api error: status " ++ r.status) ≠ ErrNotFound := by
  refine ⟨by simp [unpackResponse, h1, h2], rfl,
    ⟨"api error: status ", "", by simp [GoError.message]⟩,
    by simp [ErrNotFound]⟩

/-- Witness for C5: status 500 "500 Internal Server Error" yields a generic
error embedding the status text, distinct from `ErrNotFound`. -/
theorem unpackResponse_status_error_witness :
    unpackResponse (some 7) (some ⟨500, "500 Internal Server Error"⟩) none
        = some (none,
            some (GoError.errorString "api error: status 500 Internal Server Error"))
    ∧ GoError.errorString "api error: status 500 Internal Server Error" ≠ ErrNotFound :=
  ⟨(unpackResponse_status_error (some 7) ⟨500, "500 Internal Server Error"⟩
      (Or.inr (by decide)) (by decide)).1,
   (unpackResponse_status_error (some 7) ⟨500, "500 Internal Server Error"⟩
      (Or.inr (by decide)) (by decide)).2.2.2⟩

/--
C10: with a non-nil transport error, `unpackResponse` never reads the
`httpResponse` argument: the result is the wrapped transport error for any
`httpResponse`, including a nil one (no nil-pointer dereference); the
result is the same for any two `httpResponse` values; and with a nil
transport error a nil `httpResponse` is dereferenced (the panic case,
modelled as `none`), so a non-nil response is required only on those paths.
-/
theorem unpackResponse_ignores_response_on_transport_error {T : Type} (v : Option T)
    (hr hr' : Option HTTPResponse) (e : GoError) :
    unpackResponse v hr (some e)
        = some (none, some (GoError.wrapped "client execution error" e))
    ∧ unpackResponse v hr (some e) = unpackResponse v hr' (some e)
    ∧ unpackResponse v none none = none :=
  ⟨rfl, rfl, rfl⟩

/--
C6: `WithTimeout d` followed by `WithHTTPClient custom` yields a client
whose entire HTTP client state is `custom` — `*c = *customClient` is a
wholesale replacement, so the effective timeout is `custom.timeout`, not
`d`; options are applied in the order passed, last writer wins.
-/
theorem NewClient_httpClient_full_replacement (apiKey : String) (d : Int)
    (custom : HTTPClient) :
    NewClient apiKey [WithTimeout d, WithHTTPClient custom]
        = (some { apiKey := apiKey, baseURL := defaultBaseURL, httpClient := custom },
           none)
    ∧ (NewClient apiKey [WithTimeout d, WithHTTPClient custom]).1.map
        (fun c => c.httpClient.timeout) = some custom.timeout :=
  ⟨rfl, rfl⟩

/--
C9: `NewClient` with no options produces a client whose base URL is the
fixed default "https://api.depscian.tech/v2" and whose HTTP client timeout
is 30 seconds (30 * 10^9 nanoseconds).
-/
theorem NewClient_defaults (apiKey : String) :
    NewClient apiKey []
        = (some { apiKey := apiKey, baseURL := defaultBaseURL,
                  httpClient := initialHTTPClient }, none)
    ∧ defaultBaseURL = "https://api.depscian.tech/v2"
    ∧ initialHTTPClient.timeout = 30 * timeSecond
    ∧ 30 * timeSecond = 30000000000 :=
  ⟨rfl, rfl, rfl, by decide⟩

/-- The option loop distributes over list append: the options of the second
list run from the state the first list produced, unless that already failed. -/
theorem applyLoop_append (l₁ l₂ : List ClientOption) (c : HTTPClient) (b : String) :
    NewClient.applyLoop (l₁ ++ l₂) c b
      = match NewClient.applyLoop l₁ c b with
        | .ok (c', b') => NewClient.applyLoop l₂ c' b'
        | .error e => .error e := by
  induction l₁ generalizing c b with
  | nil => rfl
  | cons opt rest ih =>
    rcases hopt : opt c b with ⟨c', b', e⟩
    cases e with
    | none =>
      simp only [List.cons_append, NewClient.applyLoop, hopt]
      exact ih c' b'
    | some e₀ =>
      simp only [List.cons_append, NewClient.applyLoop, hopt]

/--
C8: if the options applied so far reached state `(c, b)` and the next
option fails with error `e`, `NewClient` stops there — whatever options
follow — and returns a nil client together with `e` wrapped with the
"failed to apply option" context; no partially constructed client is
returned alongside the error.
-/
theorem NewClient_aborts_on_option_failure (apiKey : String)
    (opts₁ : List ClientOption) (opt : ClientOption) (opts₂ : List ClientOption)
    (c : HTTPClient) (b : String) (c' : HTTPClient) (b' : String) (e : GoError)
    (hpre : NewClient.applyLoop opts₁ initialHTTPClient defaultBaseURL = .ok (c, b))
    (hfail : opt c b = (c', b', some e)) :
    NewClient apiKey (opts₁ ++ opt :: opts₂)
      = (none, some (GoError.wrapped "failed to apply option" e)) := by
  unfold NewClient
  rw [applyLoop_append, hpre]
  simp only [NewClient.applyLoop, hfail]

/-- Witness for C8: a failing option placed after no options and before a
`WithTimeout` aborts construction with the wrapped error. -/
theorem NewClient_aborts_on_option_failure_witness :
    NewClient "k"
        ([] ++ (fun c b => (c, b, some (GoError.errorString "boom"))) :: [WithTimeout 5])
      = (none, some (GoError.wrapped "failed to apply option" (GoError.errorString "boom"))) :=
  NewClient_aborts_on_option_failure "k" []
    (fun c b => (c, b, some (GoError.errorString "boom"))) [WithTimeout 5]
    initialHTTPClient defaultBaseURL initialHTTPClient defaultBaseURL
    (GoError.errorString "boom") rfl rfl

/-- Setting a header then reading it back under the same key gives the value. -/
theorem headerGet_headerSet (h : List (String × String)) (k v : String) :
    headerGet (headerSet h k v) k = some v := by
  simp [headerGet, headerSet, List.find?]

/--
C7: every client produced by `NewClient` carries a request editor — the
`authInterceptor` closure over the API key captured at construction — that
sets the fixed header "X-API-Key" to that key on every outgoing request,
unconditionally (nil error), regardless of the request's prior headers or
of which service facade issued it.
-/
theorem NewClient_installs_auth_header (apiKey : String) (opts : List ClientOption)
    (c : Client) (req : Request)
    (h : (NewClient apiKey opts).1 = some c) :
    headerGet ((c.requestEditor req).1.headers) apiKeyHeader = some apiKey
    ∧ (c.requestEditor req).2 = none
    ∧ apiKeyHeader = "X-API-Key" := by
  have hkey : c.apiKey = apiKey := by
    unfold NewClient at h
    rcases happly : NewClient.applyLoop opts initialHTTPClient defaultBaseURL with e | p
    · rw [happly] at h
      simp at h
    · rw [happly] at h
      rcases p with ⟨hc, hb⟩
      simp at h
      rw [← h]
  refine ⟨?_, rfl, rfl⟩
  simp [Client.requestEditor, authInterceptor, hkey, headerGet_headerSet]

/-- Witness for C7: the client built from key "secret" with no options sets
"X-API-Key: secret" on a request that had no headers. -/
theorem NewClient_installs_auth_header_witness :
    headerGet
        ((Client.requestEditor
            { apiKey := "secret", baseURL := defaultBaseURL,
              httpClient := initialHTTPClient }
            { headers := [] }).1.headers)
        apiKeyHeader = some "secret" :=
  (NewClient_installs_auth_header "secret" []
    { apiKey := "secret", baseURL := defaultBaseURL, httpClient := initialHTTPClient }
    { headers := [] } rfl).1

/--
C2 counterexample: with an endpoint call failing with transport error
`e₀ = errorString "connection refused"`, `PlayerService.Find` returns `e₀`
itself — not an error wrapping `e₀` with "client execution error" context
(which would be a different value, and unwrapping `e₀` yields nothing).
The early `if err != nil { return nil, err }` in the facade bypasses the
wrapping branch of `unpackResponse`.
-/
theorem PlayerService_Find_transport_error_unwrapped :
    (PlayerService.Find
        (fun _ => ((none : Option (ResponseEnvelope Nat)),
                   some (GoError.errorString "connection refused")))
        1 "Nick"
      = some (none, some (GoError.errorString "connection refused")))
    ∧ GoError.errorString "connection refused"
        ≠ GoError.wrapped "client execution error" (GoError.errorString "connection refused")
    ∧ GoError.unwrap (GoError.errorString "connection refused") = none :=
  ⟨rfl, fun h => GoError.noConfusion h, rfl⟩

/--
C2 (amended): when the generated endpoint call returns a non-nil transport
error `e`, `PlayerService.Find` returns `(nil, e)` — the transport error
unchanged, not wrapped; the unpack classification (including its
transport-error wrapping rule) is applied only when the transport error is
nil, because each facade returns early on a non-nil error.
-/
theorem PlayerService_Find_raw_transport_error {T : Type}
    (endpointCall : FindPlayerParams → Option (ResponseEnvelope T) × Option GoError)
    (serverID : Int) (nickname : String)
    (resp : Option (ResponseEnvelope T)) (e : GoError)
    (h : endpointCall { serverId := serverID, nickname := nickname } = (resp, some e)) :
    PlayerService.Find endpointCall serverID nickname = some (none, some e) := by
  simp only [PlayerService.Find]
  rw [h]
  cases resp <;> rfl

/-- Witness for C2 (amended): a concrete endpoint call failing with
"i/o timeout" makes `PlayerService.Find` return exactly that error. -/
theorem PlayerService_Find_raw_transport_error_witness :
    PlayerService.Find
        (fun _ => ((none : Option (ResponseEnvelope Nat)),
                   some (GoError.errorString "i/o timeout")))
        7 "Someone" = some (none, some (GoError.errorString "i/o timeout")) :=
  PlayerService_Find_raw_transport_error
    (fun _ => ((none : Option (ResponseEnvelope Nat)),
               some (GoError.errorString "i/o timeout")))
    7 "Someone" none (GoError.errorString "i/o timeout") rfl
